import Mathlib

/-!
Verification development for the `protocol` library (files `protocol/base.py`
and `protocol/imaging.py`): a shallow embedding of the parameter-compliance
model — typed parameters (Numeric, VariableNumeric, Categorical, and the
FlipAngle override), sequences of parameters, and their compliance
algorithms — together with theorems settling the specification's claims.

Modelling conventions:
* Python floats are modelled as rationals (`ℚ`); `numpy.isclose(a, b, atol)`
  keeps numpy's default relative tolerance `rtol = 1e-5` and decides
  `|a - b| ≤ atol + rtol * |b|`.
* The `Unspecified` sentinel (from `protocol.config`, whose identity is
  immaterial to the comparison logic in `base.py`) is the `PValue.unspecified`
  constructor.
* Python exceptions are an explicit error type `PyErr`; a function that can
  raise returns `Except PyErr _`, and a mutator that can raise mid-way
  returns the final state paired with `Option PyErr`.  Python
  `warnings.warn` calls are modelled by companion `...Warn(s)` functions that
  are `true` exactly on the code paths where the source calls `warn`.
* Python `str.upper` is modelled by `strUpper` (ASCII data), Python `sorted`
  by `List.insertionSort (· ≤ ·)`, and a Python `set` of names by a `List`
  of names compared through `List.toFinset`.
-/

namespace Protocol

/-- The Python exception kinds raised by the embedded code. -/
inductive PyErr
  | typeError
  | valueError
  | keyError
  | attributeError
deriving DecidableEq

deriving instance DecidableEq for Except

/-- Executable absolute value on `ℚ` (kernel-computable, unlike the lattice
`|·|`); `ratAbs_eq_abs` identifies it with Mathlib's absolute value. -/
def ratAbs (x : ℚ) : ℚ := if x < 0 then -x else x

/-- Executable power on `ℚ` with natural exponent (embeds Python `**`). -/
def qpowNat (base : ℚ) : ℕ → ℚ
  | 0 => 1
  | n + 1 => base * qpowNat base n

/-- Executable power on `ℚ` with integer exponent (embeds Python `**`);
`qpow_eq_zpow` identifies it with Mathlib's `zpow`. -/
def qpow (base : ℚ) : ℤ → ℚ
  | .ofNat n => qpowNat base n
  | .negSucc n => (qpowNat base (n + 1))⁻¹

/-- numpy's default relative tolerance, `rtol = 1e-5`. -/
def rtol : ℚ := 1 / 100000

/-- `numpy.isclose(a, b, atol=atol)` with the default `rtol`:
`|a - b| <= atol + rtol * |b|`. -/
def npIsClose (a b atol : ℚ) : Bool :=
  decide (ratAbs (a - b) ≤ atol + rtol * ratAbs b)

/-- The parameter kinds of the class hierarchy in `base.py` / `imaging.py`:
`NumericParameter`, `VariableNumericParameter`, `CategoricalParameter`, and
the `FlipAngle` subclass of `NumericParameter` (it overrides
`_check_compliance`). -/
inductive PKind
  | numeric
  | variableNumeric
  | categorical
  | flipAngle
deriving DecidableEq

/-- The possible payloads of a parameter's `value` attribute after
construction: the `Unspecified` sentinel, a float, a list of floats
(VariableNumeric), or a string (Categorical). -/
inductive PValue
  | unspecified
  | num (v : ℚ)
  | numList (vs : List ℚ)
  | str (s : String)
deriving DecidableEq

/-- A parameter object: the attributes of `BaseParameter` that the comparison
logic reads (`value`, `units`, `decimals`, and FlipAngle's `abs_tolerance`),
plus its `name` and class tag. -/
structure Parameter where
  kind : PKind
  name : String
  value : PValue
  units : Option String
  decimals : ℕ
  abs_tolerance : ℚ
deriving DecidableEq

/-- `NumericParameter._cmp_value` (base.py:213-218): `np.isclose` with
`atol = 1 ** -self.decimals` — note the source computes `1 ** -decimals`
(which equals 1), not `10 ** -decimals`, although its comment says
"tolerance is 1e-N where N = self.decimals". -/
def numericCmpValue (decimals : ℕ) (v w : ℚ) : Bool :=
  npIsClose v w (qpow 1 (-(decimals : ℤ)))

/-- `VariableNumericParameter._cmp_value` (base.py:159-164): element-wise
`np.isclose` over `zip(self.value, other.value)`, again with
`atol = 1 ** -self.decimals`. -/
def variableCmpValue (decimals : ℕ) (vs ws : List ℚ) : Bool :=
  (vs.zip ws).all (fun pr => npIsClose pr.1 pr.2 (qpow 1 (-(decimals : ℤ))))

/-- `_cmp_units` (base.py:166-168, 220-222, 274-276): plain equality of the
`units` attributes (unit conversion is a TODO in the source). -/
def cmpUnits (u v : Option String) : Bool := u == v

/-- The operand of `CategoricalParameter._cmp_value`: another parameter
object, or a raw value of the declared element type (an `Iterable`, i.e. a
string in this model). -/
inductive CatOperand
  | param (q : Parameter)
  | raw (s : String)

/-- `CategoricalParameter._cmp_value` (base.py:278-287): if `other` is an
instance of the same class, compare against `other.value` (the stored,
already upper-cased string); if it is a raw value of the declared `dtype`,
compare against it verbatim; otherwise raise `TypeError`.  A stored value
that is not a string (impossible for constructor-built categoricals) is an
`AttributeError`-like failure. -/
def categoricalCmpValue (self : Parameter) : CatOperand → Except PyErr Bool
  | .param q =>
    if q.kind = PKind.categorical then
      match self.value, q.value with
      | .str v, .str w => .ok (v == w)
      | _, _ => .error .attributeError
    else .error .typeError
  | .raw s =>
    match self.value with
    | .str v => .ok (v == s)
    | _ => .error .attributeError

/-- `_check_compliance`, by class:
* `NumericParameter` (base.py:207-211): `self._cmp_value(other) and
  self._cmp_units(other)`;
* `VariableNumericParameter` (base.py:153-157): likewise;
* `CategoricalParameter` (base.py:268-272): likewise;
* `FlipAngle` (imaging.py:506-514): overridden to
  `np.isclose(self.value, other.value, atol=self.abs_tolerance)` — it
  performs no unit comparison.
A value whose shape does not match the kind (impossible for
constructor-built parameters) is a `TypeError`. -/
def Parameter.checkCompliance (self other : Parameter) : Except PyErr Bool :=
  match self.kind with
  | .numeric =>
    match self.value, other.value with
    | .num v, .num w =>
        .ok (numericCmpValue self.decimals v w && cmpUnits self.units other.units)
    | _, _ => .error .typeError
  | .variableNumeric =>
    match self.value, other.value with
    | .numList vs, .numList ws =>
        .ok (variableCmpValue self.decimals vs ws && cmpUnits self.units other.units)
    | _, _ => .error .typeError
  | .categorical =>
    match categoricalCmpValue self (CatOperand.param other) with
    | .error e => .error e
    | .ok b => .ok (b && cmpUnits self.units other.units)
  | .flipAngle =>
    match self.value, other.value with
    | .num v, .num w => .ok (npIsClose v w self.abs_tolerance)
    | _, _ => .error .typeError

/-- `BaseParameter.compliant` (base.py:60-73): if either `value` is the
`Unspecified` sentinel, warn and return `False`; otherwise delegate to
`_check_compliance`. -/
def Parameter.compliant (self other : Parameter) : Except PyErr Bool :=
  match self.value, other.value with
  | .unspecified, _ => .ok false
  | _, .unspecified => .ok false
  | _, _ => self.checkCompliance other

/-- The `warn` call in `BaseParameter.compliant` (base.py:68-70) fires exactly
when one of the two values is the `Unspecified` sentinel. -/
def Parameter.compliantWarns (self other : Parameter) : Bool :=
  match self.value, other.value with
  | .unspecified, _ => true
  | _, .unspecified => true
  | _, _ => false

/-- `NumericParameter.__init__` (base.py:174-205): stores the float value (or
the sentinel) and sets `decimals = 3`. -/
def numericInit (name : String) (value : Option ℚ) (units : Option String) : Parameter :=
  { kind := .numeric
    name := name
    value := match value with | some v => .num v | none => .unspecified
    units := units
    decimals := 3
    abs_tolerance := 0 }

/-- The `value` argument accepted by `VariableNumericParameter.__init__`
(base.py:137-148): either a single number or an iterable of numbers. -/
inductive VNInput
  | single (v : ℚ)
  | list (vs : List ℚ)

/-- The value stored by `VariableNumericParameter.__init__` (base.py:137-148):
an iterable is stored as `sorted([float(v) for v in value])` (Python `sorted`
is ascending and modelled by `insertionSort (· ≤ ·)`); a single number is
stored as the one-element list `[float(value)]`. -/
def variableNumericInitValue : VNInput → List ℚ
  | .single v => [v]
  | .list vs => vs.insertionSort (· ≤ ·)

/-- `VariableNumericParameter.__init__` (base.py:114-151): stores the sorted
value and sets `decimals = 3`. -/
def variableNumericInit (name : String) (value : VNInput) (units : Option String) :
    Parameter :=
  { kind := .variableNumeric
    name := name
    value := .numList (variableNumericInitValue value)
    units := units
    decimals := 3
    abs_tolerance := 0 }

/-- Python `str.upper` on ASCII data: upper-case every character. -/
def strUpper (s : String) : String := ⟨s.data.map Char.toUpper⟩

/-- `CategoricalParameter.__init__` (base.py:228-266) for a specified string
value: if `allowed_values` is non-empty and the input value is not a member,
raise `ValueError`; otherwise store `str(value).upper()`.  (`decimals` keeps
the `BaseParameter` default of 2; the membership test runs on the raw value,
before upper-casing.) -/
def categoricalInit (name : String) (value : String) (allowed_values : List String) :
    Except PyErr Parameter :=
  if allowed_values ≠ [] ∧ value ∉ allowed_values then
    .error .valueError
  else
    .ok { kind := .categorical
          name := name
          value := .str (strUpper value)
          units := none
          decimals := 2
          abs_tolerance := 0 }

/-- `FlipAngle.__init__` (imaging.py:486-503): a `NumericParameter` with
`units='degrees'`, `decimals = 0` and `abs_tolerance = 0`. -/
def flipAngleInit (value : Option ℚ) : Parameter :=
  { kind := .flipAngle
    name := "FlipAngle"
    value := match value with | some v => .num v | none => .unspecified
    units := some "degrees"
    decimals := 0
    abs_tolerance := 0 }

/-- An entry of a Sequence's `__dict__`: a stored Parameter, or one of the
plain non-Parameter attributes (`name`, `path`, `subject_id`, ...). -/
inductive Entry
  | param (p : Parameter)
  | plainAttribute
deriving DecidableEq

/-- A `BaseSequence` (base.py:290-324): its `name`, the `params` name-set
(a Python `set`, modelled as a list considered up to `toFinset`), and its
`__dict__` mapping names to entries. -/
structure Sequence where
  name : String
  params : List String
  dict : List (String × Entry)
deriving DecidableEq

/-- Python dict assignment `d[k] = v`: replace the value under `k`, or append
the new key. -/
def dictSet : List (String × Entry) → String → Entry → List (String × Entry)
  | [], k, v => [(k, v)]
  | (k', v') :: rest, k, v =>
    if k' = k then (k, v) :: rest else (k', v') :: dictSet rest k v

/-- Python `set.add` on the `params` name-set. -/
def paramsAdd (l : List String) (n : String) : List String :=
  if n ∈ l then l else l ++ [n]

/-- The two storing statements shared by `BaseSequence.add` and
`BaseSequence.__setitem__` (base.py:347-349, 362-363):
`self.__dict__[key] = param; self.params.add(key)`. -/
def Sequence.store (s : Sequence) (key : String) (p : Parameter) : Sequence :=
  { s with dict := dictSet s.dict key (Entry.param p)
           params := paramsAdd s.params key }

/-- An element of the (possibly wrapped) list processed by
`BaseSequence.add`: a `BaseParameter`, or any other object. -/
inductive AddItem
  | param (p : Parameter)
  | notParam
deriving DecidableEq

/-- The loop of `BaseSequence.add` (base.py:342-349): store each Parameter
under its own `name`; on the first non-Parameter raise `ValueError`,
leaving the already-stored items in place (the state at the raise is
returned alongside the error). -/
def Sequence.addLoop : Sequence → List AddItem → Sequence × Option PyErr
  | s, [] => (s, none)
  | s, AddItem.notParam :: _ => (s, some PyErr.valueError)
  | s, AddItem.param p :: rest => Sequence.addLoop (s.store p.name p) rest

/-- The key argument of `BaseSequence.__setitem__`: a string or not. -/
inductive SetKey
  | str (k : String)
  | notStr

/-- The value argument of `BaseSequence.__setitem__`: a Parameter or not. -/
inductive SetVal
  | param (p : Parameter)
  | notParam

/-- `BaseSequence.__setitem__` (base.py:351-363): `ValueError` when the value
is not a `BaseParameter` (checked first) or the key is not a string, both
before any mutation; otherwise store the parameter under the key. -/
def Sequence.setitem (s : Sequence) (key : SetKey) (value : SetVal) :
    Sequence × Option PyErr :=
  match value with
  | .notParam => (s, some PyErr.valueError)
  | .param p =>
    match key with
    | .notStr => (s, some PyErr.valueError)
    | .str k => (s.store k p, none)

/-- `BaseSequence.__getitem__` (base.py:368-378): return `self.__dict__[name]`
if present; on `KeyError` return the fallback when it is not `None`, else
re-raise `KeyError`. -/
def Sequence.getitem (s : Sequence) (key : String) (fb : Option Entry) :
    Except PyErr Entry :=
  match List.lookup key s.dict with
  | some e => .ok e
  | none =>
    match fb with
    | some v => .ok v
    | none => .error .keyError

/-- `BaseSequence.get` (base.py:365-366): calls `__getitem__` but lacks a
`return`, so it yields Python `None` (`Except.ok none`) whenever the lookup
succeeds, and propagates the `KeyError` otherwise. -/
def Sequence.get (s : Sequence) (key : String) (fb : Option Entry) :
    Except PyErr (Option Entry) :=
  match s.getitem key fb with
  | .ok _ => .ok none
  | .error e => .error e

/-- The second component returned by `BaseSequence.compliant`: a set of
parameter names on a shape mismatch, or the list of non-compliant
`(this_param, that_param)` pairs. -/
inductive MismatchPayload
  | names (diff : Finset String)
  | pairs (l : List (Parameter × Parameter))
deriving DecidableEq

/-- Python `set.symmetric_difference`. -/
def symmetricDifference (a b : Finset String) : Finset String := (a \ b) ∪ (b \ a)

/-- The per-parameter loop of `BaseSequence.compliant` (base.py:398-402):
for each name, fetch `this_param = self.__dict__[pname]` and
`that_param = other[pname]`, test `that_param.compliant(this_param)`, and
collect each non-compliant pair `(this_param, that_param)`; a missing name
is a `KeyError` and a non-Parameter entry an `AttributeError`, as in
Python. -/
def Sequence.compliantLoop (self other : Sequence) :
    List String → Except PyErr (List (Parameter × Parameter))
  | [] => .ok []
  | pname :: rest =>
    match List.lookup pname self.dict with
    | none => .error .keyError
    | some Entry.plainAttribute => .error .attributeError
    | some (Entry.param this_param) =>
      match List.lookup pname other.dict with
      | none => .error .keyError
      | some Entry.plainAttribute => .error .attributeError
      | some (Entry.param that_param) =>
        match that_param.compliant this_param with
        | .error e => .error e
        | .ok b =>
          match Sequence.compliantLoop self other rest with
          | .error e => .error e
          | .ok collected =>
            .ok (if b then collected else (this_param, that_param) :: collected)

/-- `BaseSequence.compliant` (base.py:380-406): if the two `params` name-sets
differ, warn and return `(False, symmetric_difference)`; otherwise compare
every shared parameter pair and return `(len(non_compliant) < 1,
non_compliant_list)`. -/
def Sequence.compliant (self other : Sequence) : Except PyErr (Bool × MismatchPayload) :=
  if self.params.toFinset ≠ other.params.toFinset then
    .ok (false,
      .names (symmetricDifference self.params.toFinset other.params.toFinset))
  else
    match Sequence.compliantLoop self other self.params with
    | .error e => .error e
    | .ok ncp => .ok (decide (ncp.length < 1), .pairs ncp)

/-- The `warn` call in `BaseSequence.compliant` (base.py:391-393) fires
exactly when the two name-sets differ. -/
def Sequence.compliantShapeWarn (self other : Sequence) : Bool :=
  decide (self.params.toFinset ≠ other.params.toFinset)

/-- Decidable guard for claim C3: every name of `self.params` is mapped to a
Parameter in both sequences and the per-pair comparison
`that_param.compliant(this_param)` returns (rather than raising). -/
def Sequence.cmpDefined (self other : Sequence) : Bool :=
  self.params.all (fun n =>
    match List.lookup n self.dict, List.lookup n other.dict with
    | some (Entry.param p), some (Entry.param q) =>
      match q.compliant p with
      | .ok _ => true
      | .error _ => false
    | _, _ => false)

/-! Concrete objects used by the claim theorems, counterexamples and
witnesses. -/

-- NumericParameter pair exercising base.py:213-218 at a failing input for
-- claim C1: equal units, values 100 and 100.5, decimals = 3.
def c1ParamA : Parameter := numericInit "RepetitionTime" (some 100) (some "ms")

def c1ParamB : Parameter := numericInit "RepetitionTime" (some (201 / 2)) (some "ms")

-- A parameter with an Unspecified value, for the C5 witness.
def c5Param : Parameter := numericInit "RepetitionTime" none (some "ms")

-- The categorical parameter stored by
-- `CategoricalParameter('PhaseEncodingDirection', 'row')`: the constructor
-- upper-cases the value to "ROW".
def c6Param : Parameter :=
  { kind := .categorical
    name := "PhaseEncodingDirection"
    value := .str "ROW"
    units := none
    decimals := 2
    abs_tolerance := 0 }

-- The categorical parameter stored for the construction input "Row"
-- (also upper-cased to "ROW"), for the C6 witness.
def c6ParamQ : Parameter :=
  { kind := .categorical
    name := "PhaseEncodingDirection"
    value := .str "ROW"
    units := none
    decimals := 2
    abs_tolerance := 0 }

-- FlipAngle states with equal values but different unit strings for claim
-- C4 (the constructor itself always sets units to 'degrees'; the `units`
-- attribute is plain mutable Python state).
def c4FlipA : Parameter := flipAngleInit (some 90)

def c4FlipB : Parameter := { flipAngleInit (some 90) with units := some "rad" }

-- Categorical parameters (value comparison is pure string equality) and the
-- sequences {A, B} and {A, C} built from them, for the C2 and C10 witnesses;
-- both sequences carry the *same* parameter under "A".
def wParamA : Parameter :=
  { kind := .categorical, name := "A", value := .str "X"
    units := none, decimals := 2, abs_tolerance := 0 }

def wParamB : Parameter :=
  { kind := .categorical, name := "B", value := .str "Y"
    units := none, decimals := 2, abs_tolerance := 0 }

def wParamC : Parameter :=
  { kind := .categorical, name := "C", value := .str "Z"
    units := none, decimals := 2, abs_tolerance := 0 }

def seqAB : Sequence :=
  { name := "S1"
    params := ["A", "B"]
    dict := [("A", Entry.param wParamA), ("B", Entry.param wParamB)] }

def seqAC : Sequence :=
  { name := "S2"
    params := ["A", "C"]
    dict := [("A", Entry.param wParamA), ("C", Entry.param wParamC)] }

-- Sequences with the same name-set {A, B} whose "B" parameters differ in
-- value ("Y" vs "Z"), for the C3 witness.
def wParamB2 : Parameter :=
  { kind := .categorical, name := "B", value := .str "Z"
    units := none, decimals := 2, abs_tolerance := 0 }

def seqAB2 : Sequence :=
  { name := "S3"
    params := ["A", "B"]
    dict := [("A", Entry.param wParamA), ("B", Entry.param wParamB2)] }

-- An empty sequence and a parameter for the C8 counterexample.
def c8Seq : Sequence := { name := "S", params := [], dict := [] }

def c8Param : Parameter :=
  { kind := .categorical, name := "P0", value := .str "V"
    units := none, decimals := 2, abs_tolerance := 0 }

/-! Bridge lemmas between the executable arithmetic and Mathlib's. -/

theorem ratAbs_eq_abs (x : ℚ) : ratAbs x = |x| := by
  unfold ratAbs
  rcases lt_or_le x 0 with h | h
  · rw [if_pos h, abs_of_neg h]
  · rw [if_neg (not_lt.mpr h), abs_of_nonneg h]

theorem qpowNat_eq_pow (base : ℚ) (n : ℕ) : qpowNat base n = base ^ n := by
  induction n with
  | zero => rw [qpowNat, pow_zero]
  | succ k ih => rw [qpowNat, ih, pow_succ, mul_comm]

theorem qpow_eq_zpow (base : ℚ) (e : ℤ) : qpow base e = base ^ e := by
  cases e with
  | ofNat n => rw [qpow, qpowNat_eq_pow, Int.ofNat_eq_coe, zpow_natCast]
  | negSucc n => rw [qpow, qpowNat_eq_pow, zpow_negSucc]

theorem npIsClose_iff (a b atol : ℚ) :
    npIsClose a b atol = true ↔ |a - b| ≤ atol + rtol * |b| := by
  rw [npIsClose, ratAbs_eq_abs, ratAbs_eq_abs, decide_eq_true_iff]

theorem zip_take_eq {α β : Type} (vs : List α) (ws : List β) :
    vs.zip ws = (vs.take ws.length).zip (ws.take vs.length) := by
  induction vs generalizing ws with
  | nil => simp
  | cons v vs ih =>
    cases ws with
    | nil => simp
    | cons w ws => simpa using ih ws

/-! The claims. -/

/-- Claim C1 (code bug): for Numeric parameters with equal units and both
values specified, the spec demands `compliant = true` iff
`|a.value - b.value| < 10^(-decimals)`; but `NumericParameter._cmp_value`
computes `atol = 1 ** -self.decimals = 1` (a slip for `10 ** -decimals`,
contradicting the comment "tolerance is 1e-N" directly above it).  At
`a.value = 100`, `b.value = 100.5`, `decimals = 3`, equal units `ms`, the
code returns compliant even though the difference 0.5 is far above
`10^(-3)`. -/
theorem c1_numeric_tolerance_code_bug :
    c1ParamA.compliant c1ParamB = Except.ok true ∧
      c1ParamA.decimals = 3 ∧
      c1ParamA.units = c1ParamB.units ∧
      ¬ (|(100 : ℚ) - 201 / 2| < 10 ^ (-(3 : ℤ))) := by
  have h1 : |(100 : ℚ) - 201 / 2| = 1 / 2 := by
    rw [show (100 : ℚ) - 201 / 2 = -(1 / 2) by norm_num, abs_neg,
      abs_of_nonneg (by norm_num : (0 : ℚ) ≤ 1 / 2)]
  refine ⟨?_, rfl, rfl, ?_⟩
  · have hval : numericCmpValue 3 100 (201 / 2) = true := by
      rw [numericCmpValue, npIsClose, decide_eq_true_iff, ratAbs_eq_abs, ratAbs_eq_abs,
        qpow_eq_zpow, one_zpow, rtol, h1, abs_of_nonneg (by norm_num : (0 : ℚ) ≤ 201 / 2)]
      norm_num
    show Except.ok (numericCmpValue 3 100 (201 / 2) && cmpUnits (some "ms") (some "ms")) =
      Except.ok true
    rw [hval]
    rfl
  · rw [h1]
    norm_num

/-- Claim C9: the `VariableNumericParameter` constructor stores the
ascending-sorted list of the input's elements (so `[3, 1, 2]` is stored as
`[1, 2, 3]`), and a single number is stored as a one-element list. -/
theorem c9_variable_numeric_sorted_storage :
    (∀ v : ℚ, variableNumericInitValue (VNInput.single v) = [v]) ∧
    (∀ vs : List ℚ,
      List.Sorted (· ≤ ·) (variableNumericInitValue (VNInput.list vs)) ∧
      (variableNumericInitValue (VNInput.list vs)).Perm vs) ∧
    variableNumericInitValue (VNInput.list [3, 1, 2]) = [1, 2, 3] := by
  refine ⟨fun v => rfl, fun vs => ⟨?_, ?_⟩, by decide⟩
  · exact List.sorted_insertionSort (· ≤ ·) vs
  · exact List.perm_insertionSort (· ≤ ·) vs

/-- Claim C7: `VariableNumericParameter._cmp_value` compares element-wise only
up to the shorter of the two lengths — truncating each list to the other's
length never changes the result, so the extra elements of the longer sequence
are ignored; the comparison is a total function (`Bool`-valued), so no error
arises from a length difference. -/
theorem c7_variable_numeric_shorter_length :
    ∀ (d : ℕ) (vs ws : List ℚ),
      variableCmpValue d vs ws =
        variableCmpValue d (vs.take ws.length) (ws.take vs.length) := by
  intro d vs ws
  rw [variableCmpValue, variableCmpValue, ← zip_take_eq]

/-- Claim C5: whenever either compared value is the `Unspecified` sentinel,
`BaseParameter.compliant` warns and returns `False` without raising. -/
theorem c5_unspecified_never_compliant (p q : Parameter)
    (h : p.value = PValue.unspecified ∨ q.value = PValue.unspecified) :
    p.compliant q = Except.ok false ∧ p.compliantWarns q = true := by
  rcases h with h | h
  · constructor <;> simp [Parameter.compliant, Parameter.compliantWarns, h]
  · cases hp : p.value <;>
      constructor <;>
        simp [Parameter.compliant, Parameter.compliantWarns, h, hp]

/-- Witness for C5 at two Unspecified-valued parameters. -/
theorem c5_unspecified_never_compliant_witness :
    c5Param.compliant c5Param = Except.ok false ∧
      c5Param.compliantWarns c5Param = true :=
  c5_unspecified_never_compliant c5Param c5Param (Or.inl rfl)

/-- Claim C6 counterexample: compliance against a *raw* operand is not
case-insensitive.  A categorical parameter constructed from `"row"` stores
`"ROW"`, and `_cmp_value` compares a raw operand verbatim: against the raw
value `"row"` it returns `False` even though the two values are equal up to
case (their upper-casings agree). -/
theorem c6_counterexample :
    categoricalInit "PhaseEncodingDirection" "row" [] = Except.ok c6Param ∧
      categoricalCmpValue c6Param (CatOperand.raw "row") = Except.ok false ∧
      strUpper "ROW" = strUpper "row" := by
  exact ⟨by decide, by decide, by decide⟩

/-- Claim C6 (amended): compliance between two Categorical *parameters* is
case-insensitive — both stored values are upper-cased at construction, so the
comparison equals equality of the upper-cased inputs; a *raw* operand is
compared verbatim (not normalized) against the stored upper-cased value; and
constructing with a value outside a non-empty `allowed_values` always fails
with a `ValueError`. -/
theorem c6_categorical_amended (u₁ u₂ v w s : String) (p q : Parameter)
    (hp : categoricalInit u₁ v [] = Except.ok p)
    (hq : categoricalInit u₂ w [] = Except.ok q) :
    categoricalCmpValue p (CatOperand.param q) = Except.ok (strUpper v == strUpper w) ∧
      categoricalCmpValue p (CatOperand.raw s) = Except.ok (strUpper v == s) ∧
      (∀ (n val : String) (allowed : List String),
        allowed ≠ [] → val ∉ allowed →
        categoricalInit n val allowed = Except.error PyErr.valueError) := by
  rw [categoricalInit] at hp hq
  rw [if_neg (by simp)] at hp hq
  have hp' := (Except.ok.injEq _ _).mp hp
  have hq' := (Except.ok.injEq _ _).mp hq
  refine ⟨?_, ?_, ?_⟩
  · rw [← hp', ← hq']
    rfl
  · rw [← hp']
    rfl
  · intro n val allowed h1 h2
    rw [categoricalInit, if_pos ⟨h1, h2⟩]

/-- Witness for the amended C6 at parameters built from `"row"` and `"Row"`
and the raw operand `"ROW"`. -/
theorem c6_categorical_amended_witness :
    categoricalCmpValue c6Param (CatOperand.param c6ParamQ) =
        Except.ok (strUpper "row" == strUpper "Row") ∧
      categoricalCmpValue c6Param (CatOperand.raw "ROW") =
        Except.ok (strUpper "row" == "ROW") ∧
      (∀ (n val : String) (allowed : List String),
        allowed ≠ [] → val ∉ allowed →
        categoricalInit n val allowed = Except.error PyErr.valueError) :=
  c6_categorical_amended "PhaseEncodingDirection" "PhaseEncodingDirection"
    "row" "Row" "ROW" c6Param c6ParamQ (by decide) (by decide)

/-- Claim C4 counterexample: `FlipAngle._check_compliance` performs no unit
check — two FlipAngle states with equal values but different unit strings are
reported compliant. -/
theorem c4_counterexample :
    c4FlipA.compliant c4FlipB = Except.ok true ∧ c4FlipA.units ≠ c4FlipB.units := by
  have h : npIsClose 90 90 0 = true := by
    rw [npIsClose]
    apply decide_eq_true
    rw [ratAbs_eq_abs, ratAbs_eq_abs, show (90 : ℚ) - 90 = 0 by norm_num, abs_zero,
      abs_of_nonneg (by norm_num : (0 : ℚ) ≤ 90), rtol]
    norm_num
  constructor
  · show Except.ok (npIsClose 90 90 0) = Except.ok true
    rw [h]
  · decide

/-- Claim C4 (amended): with both values specified, compliance for Numeric,
VariableNumeric and Categorical parameters is the conjunction of the kind's
value check and the unit check `cmpUnits` (exact equality of the `units`
strings); `FlipAngle` overrides `_check_compliance` to compare only the
values against its absolute tolerance, with no unit check (its constructor
always sets `units = 'degrees'`). -/
theorem c4_unit_check_amended (p q : Parameter) :
    (∀ v w, p.kind = PKind.numeric → p.value = PValue.num v → q.value = PValue.num w →
      p.compliant q =
        Except.ok (numericCmpValue p.decimals v w && cmpUnits p.units q.units)) ∧
    (∀ vs ws, p.kind = PKind.variableNumeric →
      p.value = PValue.numList vs → q.value = PValue.numList ws →
      p.compliant q =
        Except.ok (variableCmpValue p.decimals vs ws && cmpUnits p.units q.units)) ∧
    (∀ v w, p.kind = PKind.categorical → q.kind = PKind.categorical →
      p.value = PValue.str v → q.value = PValue.str w →
      p.compliant q = Except.ok ((v == w) && cmpUnits p.units q.units)) ∧
    (∀ v w, p.kind = PKind.flipAngle → p.value = PValue.num v → q.value = PValue.num w →
      p.compliant q = Except.ok (npIsClose v w p.abs_tolerance)) := by
  refine ⟨?_, ?_, ?_, ?_⟩
  · intro v w hk hv hw
    simp [Parameter.compliant, Parameter.checkCompliance, hk, hv, hw]
  · intro vs ws hk hv hw
    simp [Parameter.compliant, Parameter.checkCompliance, hk, hv, hw]
  · intro v w hk hqk hv hw
    simp [Parameter.compliant, Parameter.checkCompliance, categoricalCmpValue,
      hk, hqk, hv, hw]
  · intro v w hk hv hw
    simp [Parameter.compliant, Parameter.checkCompliance, hk, hv, hw]

/-- Witness for the amended C4 at the FlipAngle clause: the concrete
FlipAngle pair with differing unit strings compares by value only. -/
theorem c4_unit_check_amended_witness :
    c4FlipA.compliant c4FlipB = Except.ok (npIsClose 90 90 c4FlipA.abs_tolerance) :=
  (c4_unit_check_amended c4FlipA c4FlipB).2.2.2 90 90 rfl rfl rfl

/-- Claim C2: when the two name-sets differ, `Sequence.compliant` warns and
returns `(False, symmetric difference of the name-sets)` — the result depends
only on the name-sets, never on any stored parameter value. -/
theorem c2_shape_mismatch (s t : Sequence)
    (h : s.params.toFinset ≠ t.params.toFinset) :
    s.compliant t =
      Except.ok (false,
        MismatchPayload.names (symmetricDifference s.params.toFinset t.params.toFinset)) ∧
      s.compliantShapeWarn t = true := by
  constructor
  · rw [Sequence.compliant, if_pos h]
  · rw [Sequence.compliantShapeWarn, decide_eq_true_iff]
    exact h

/-- Witness for C2 at the concrete sequences with name-sets `{A, B}` and
`{A, C}` sharing an identical parameter under `A`: the result is
`(False, {B, C})`. -/
theorem c2_shape_mismatch_witness :
    seqAB.compliant seqAC =
      Except.ok (false,
        MismatchPayload.names
          (symmetricDifference seqAB.params.toFinset seqAC.params.toFinset)) ∧
      seqAB.compliantShapeWarn seqAC = true ∧
      symmetricDifference seqAB.params.toFinset seqAC.params.toFinset = {"B", "C"} :=
  ⟨(c2_shape_mismatch seqAB seqAC (by decide)).1,
    (c2_shape_mismatch seqAB seqAC (by decide)).2, by decide⟩

theorem compliantLoop_spec (s t : Sequence) (names : List String)
    (h : ∀ n ∈ names, ∃ p q b,
      List.lookup n s.dict = some (Entry.param p) ∧
      List.lookup n t.dict = some (Entry.param q) ∧
      q.compliant p = Except.ok b) :
    ∃ l, Sequence.compliantLoop s t names = Except.ok l ∧
      (∀ pr ∈ l, ∃ n ∈ names,
        List.lookup n s.dict = some (Entry.param pr.1) ∧
        List.lookup n t.dict = some (Entry.param pr.2) ∧
        pr.2.compliant pr.1 = Except.ok false) ∧
      (∀ n ∈ names, ∀ p q,
        List.lookup n s.dict = some (Entry.param p) →
        List.lookup n t.dict = some (Entry.param q) →
        q.compliant p = Except.ok false → (p, q) ∈ l) := by
  induction names with
  | nil => exact ⟨[], rfl, by simp, by simp⟩
  | cons n rest ih =>
    obtain ⟨p, q, b, hp, hq, hb⟩ := h n (List.mem_cons_self n rest)
    obtain ⟨l, hl, hmem, hcomplete⟩ := ih (fun m hm => h m (List.mem_cons_of_mem n hm))
    refine ⟨if b then l else (p, q) :: l, ?_, ?_, ?_⟩
    · simp only [Sequence.compliantLoop, hp, hq, hb, hl]
    · intro pr hpr
      cases b with
      | true =>
        obtain ⟨m, hm, hrest⟩ := hmem pr (by simpa using hpr)
        exact ⟨m, List.mem_cons_of_mem n hm, hrest⟩
      | false =>
        rcases (by simpa using hpr : pr = (p, q) ∨ pr ∈ l) with hpq | hpl
        · exact hpq ▸ ⟨n, List.mem_cons_self n rest, hp, hq, hb⟩
        · obtain ⟨m, hm, hrest⟩ := hmem pr hpl
          exact ⟨m, List.mem_cons_of_mem n hm, hrest⟩
    · intro m hm p' q' hp' hq' hfalse
      rcases List.mem_cons.mp hm with rfl | hmrest
      · have hpp : p = p' := by simpa using hp.symm.trans hp'
        have hqq : q = q' := by simpa using hq.symm.trans hq'
        subst hpp
        subst hqq
        have hbf : b = false := by simpa using hb.symm.trans hfalse
        subst hbf
        exact List.mem_cons_self _ _
      · have hin := hcomplete m hmrest p' q' hp' hq' hfalse
        cases b with
        | true => simpa using hin
        | false => simpa using List.mem_cons_of_mem (p, q) hin

/-- Claim C3: with identical name-sets, `Sequence.compliant` compares each
same-named pair in the fixed direction `that_param.compliant(this_param)`,
collects exactly the non-compliant pairs as `(this_param, that_param)`
tuples, and returns `(True, [])` iff that list is empty, else `(False,
list)`. -/
theorem c3_value_check (s t : Sequence)
    (hset : s.params.toFinset = t.params.toFinset)
    (hdef : Sequence.cmpDefined s t = true) :
    ∃ l, s.compliant t = Except.ok (decide (l.length < 1), MismatchPayload.pairs l) ∧
      (∀ pr ∈ l, ∃ n ∈ s.params,
        List.lookup n s.dict = some (Entry.param pr.1) ∧
        List.lookup n t.dict = some (Entry.param pr.2) ∧
        pr.2.compliant pr.1 = Except.ok false) ∧
      (∀ n ∈ s.params, ∀ p q,
        List.lookup n s.dict = some (Entry.param p) →
        List.lookup n t.dict = some (Entry.param q) →
        q.compliant p = Except.ok false → (p, q) ∈ l) ∧
      (decide (l.length < 1) = true ↔ l = []) := by
  have h : ∀ n ∈ s.params, ∃ p q b,
      List.lookup n s.dict = some (Entry.param p) ∧
      List.lookup n t.dict = some (Entry.param q) ∧
      q.compliant p = Except.ok b := by
    intro n hn
    have hall := (List.all_eq_true.mp hdef) n hn
    cases hls : List.lookup n s.dict with
    | none => rw [hls] at hall; simp at hall
    | some es =>
      cases es with
      | plainAttribute => rw [hls] at hall; simp at hall
      | param p =>
        cases hlt : List.lookup n t.dict with
        | none => rw [hls, hlt] at hall; simp at hall
        | some et =>
          cases et with
          | plainAttribute => rw [hls, hlt] at hall; simp at hall
          | param q =>
            rw [hls, hlt] at hall
            cases hc : q.compliant p with
            | error e => simp [hc] at hall
            | ok b => exact ⟨p, q, b, rfl, rfl, hc⟩
  obtain ⟨l, hl, hmem, hcomplete⟩ := compliantLoop_spec s t s.params h
  refine ⟨l, ?_, hmem, hcomplete, ?_⟩
  · rw [Sequence.compliant, if_neg (by simpa using hset), hl]
  · rw [decide_eq_true_iff, Nat.lt_one_iff, List.length_eq_zero]

/-- Witness for C3 at the concrete sequences `{A, B}` (values X, Y) and
`{A, B}` (values X, Z): an explicit mismatch list exists. -/
theorem c3_value_check_witness :
    ∃ l, seqAB.compliant seqAB2 =
        Except.ok (decide (l.length < 1), MismatchPayload.pairs l) ∧
      (∀ pr ∈ l, ∃ n ∈ seqAB.params,
        List.lookup n seqAB.dict = some (Entry.param pr.1) ∧
        List.lookup n seqAB2.dict = some (Entry.param pr.2) ∧
        pr.2.compliant pr.1 = Except.ok false) ∧
      (∀ n ∈ seqAB.params, ∀ p q,
        List.lookup n seqAB.dict = some (Entry.param p) →
        List.lookup n seqAB2.dict = some (Entry.param q) →
        q.compliant p = Except.ok false → (p, q) ∈ l) ∧
      (decide (l.length < 1) = true ↔ l = []) :=
  c3_value_check seqAB seqAB2 (by decide) (by decide)

/-- Claim C8 counterexample: `BaseSequence.add` raises `ValueError` (not
`TypeError`) on a non-Parameter item, and when the offending item follows a
valid Parameter in the list, the valid Parameter has already been stored —
the error is not raised before any state mutation. -/
theorem c8_counterexample :
    c8Seq.addLoop [AddItem.param c8Param, AddItem.notParam] =
      (c8Seq.store "P0" c8Param, some PyErr.valueError) ∧
      (c8Seq.addLoop [AddItem.param c8Param, AddItem.notParam]).2 ≠
        some PyErr.typeError ∧
      c8Seq.store "P0" c8Param ≠ c8Seq := by
  exact ⟨rfl, by decide, by decide⟩

/-- Claim C8 (amended): `add` raises `ValueError` at the first non-Parameter
item, with every earlier Parameter of the list already stored (no error when
all items are Parameters); `__setitem__` raises `ValueError` for a
non-Parameter value or a non-string key, in both cases before any mutation,
and stores the parameter otherwise. -/
theorem c8_add_setitem_amended :
    (∀ (s : Sequence) (good : List Parameter) (rest : List AddItem),
      s.addLoop (good.map AddItem.param ++ AddItem.notParam :: rest) =
        (good.foldl (fun t p => t.store p.name p) s, some PyErr.valueError)) ∧
    (∀ (s : Sequence) (ps : List Parameter),
      s.addLoop (ps.map AddItem.param) =
        (ps.foldl (fun t p => t.store p.name p) s, none)) ∧
    (∀ (s : Sequence) (key : SetKey),
      s.setitem key SetVal.notParam = (s, some PyErr.valueError)) ∧
    (∀ (s : Sequence) (p : Parameter),
      s.setitem SetKey.notStr (SetVal.param p) = (s, some PyErr.valueError)) ∧
    (∀ (s : Sequence) (k : String) (p : Parameter),
      s.setitem (SetKey.str k) (SetVal.param p) = (s.store k p, none)) := by
  refine ⟨?_, ?_, ?_, ?_, ?_⟩
  · intro s good rest
    induction good generalizing s with
    | nil => rfl
    | cons p ps ih => exact ih (s.store p.name p)
  · intro s ps
    induction ps generalizing s with
    | nil => rfl
    | cons p ps ih => exact ih (s.store p.name p)
  · intro s key
    rfl
  · intro s p
    rfl
  · intro s k p
    rfl

/-- Claim C10: `BaseSequence.get` never returns a stored entry (its body
calls `__getitem__` without `return`): it returns Python `None` whenever the
name is populated or a non-`None` fallback was supplied, and raises
`KeyError` when the name is absent and the fallback is `None`. -/
theorem c10_get_returns_none (s : Sequence) (key : String) (fb : Option Entry) :
    (∀ e : Entry, s.get key fb ≠ Except.ok (some e)) ∧
      ((List.lookup key s.dict).isSome = true ∨ fb.isSome = true →
        s.get key fb = Except.ok none) ∧
      (List.lookup key s.dict = none → fb = none →
        s.get key fb = Except.error PyErr.keyError) := by
  cases hl : List.lookup key s.dict with
  | some e =>
    refine ⟨?_, ?_, ?_⟩ <;> simp [Sequence.get, Sequence.getitem, hl]
  | none =>
    cases fb with
    | some v =>
      refine ⟨?_, ?_, ?_⟩ <;> simp [Sequence.get, Sequence.getitem, hl]
    | none =>
      refine ⟨?_, ?_, ?_⟩ <;> simp [Sequence.get, Sequence.getitem, hl]

/-- Witness for C10: on the concrete sequence `{A, B}`, `get "A" None`
returns `None` although `"A"` is populated, and `get "missing" None` raises
`KeyError`. -/
theorem c10_get_returns_none_witness :
    seqAB.get "A" none = Except.ok none ∧
      seqAB.get "missing" none = Except.error PyErr.keyError :=
  ⟨(c10_get_returns_none seqAB "A" none).2.1 (Or.inl (by decide)),
    (c10_get_returns_none seqAB "missing" none).2.2 (by decide) rfl⟩

end Protocol
